import Mathlib

/-!
# faas-pigo: the face-detection handler (`function/handler.go`)

A shallow embedding of `handler.go`.  Calls into the Go standard library, into
`pigo` and into `gg`, and every answer of the file system, are fields of an
environment `Env`: the functions of the handler are translated over an arbitrary
environment, and the theorems hold for every environment.

Conventions.
* A Go slice is `GoSlice α = Option (List α)`; `none` is the nil slice.
* A result `Option _` of a translated function is `none` when the Go function
  panics (nil pointer dereference), `some _` when it returns.  `DetectFaces` keeps its
  trace and the package variable `dc` also when it panics, and says so in the field
  `panicked` of its result.
* Go `int` is the 64-bit two-complement integer; arithmetic wraps (`wrapInt`).
* A `float32`/`float64` value is a `GoFloat`: NaN, an infinity, or the rational
  it denotes.  The only floating-point operation of the handler is the
  comparison `face.Q > qThresh`, which is exact.
* Every translated function also returns the list of external calls it made, in
  order (`Event`).
* An environment answers a call by the call's arguments, and by the iteration of the
  loop of `Handle` for `h.Open`, `ioutil.TempFile` and `time.Now`; what a file holds
  when it is read back is part of the environment.
* The deferred `file.Close()` and `os.Remove(...)` calls have no part in any result and
  are left out, as is the branch of `Handle` for an error of `json.Marshal`, which does
  not occur for a `[]DetectionResult`.
* `json.Marshal` is translated to the JSON value it denotes, not to its bytes; a
  filename is a `String`, so it is valid UTF-8.
-/

namespace FaasPigo

/-! ## Go values -/

/-- A Go slice: `none` is the nil slice, `some xs` a non-nil slice of elements `xs`. -/
abbrev GoSlice (α : Type) := Option (List α)

/-- The elements of a slice, as `range` visits them. -/
def GoSlice.toList {α : Type} (s : GoSlice α) : List α := s.getD []

/-- Go builtin `append(s, x)`: the result is never nil. -/
def goAppend {α : Type} (s : GoSlice α) (x : α) : GoSlice α := some (s.toList ++ [x])

/-- A Go `error` value that is not nil, by its message. -/
abbrev Err := String

/-- A `[]byte`; each element stands for the byte `b % 256`. -/
abbrev Bytes := List Nat

/-- A `float32` or `float64` value by what it denotes (both zeros denote `fin 0`). -/
inductive GoFloat where
  | nan
  | negInf
  | posInf
  | fin (q : ℚ)
  deriving DecidableEq

/-- Go `a > b` on floats (IEEE 754: false as soon as one side is NaN). -/
def GoFloat.gt : GoFloat → GoFloat → Bool
  | .fin a, .fin b => decide (b < a)
  | .posInf, .fin _ => true
  | .posInf, .negInf => true
  | .fin _, .negInf => true
  | _, _ => false

/-- Reduction of a mathematical integer to Go `int` (64 bits, two-complement). -/
def wrapInt (x : Int) : Int := (x + 2 ^ 63) % 2 ^ 64 - 2 ^ 63

/-- Go `a - b` on `int`. -/
def intSub (a b : Int) : Int := wrapInt (a - b)

/-- Go `a / b` on `int` for `b ≠ 0`: the quotient truncated toward zero. -/
def intDiv (a b : Int) : Int := wrapInt (Int.tdiv a b)

/-- The values of type `int`. -/
def IsInt (x : Int) : Prop := -(2 ^ 63) ≤ x ∧ x < 2 ^ 63

/-! ## `image` -/

/-- Go `image.Point`. -/
structure Point where
  X : Int
  Y : Int
  deriving DecidableEq, Repr

/-- Go `image.Rectangle`. -/
structure Rectangle where
  Min : Point
  Max : Point
  deriving DecidableEq, Repr

/-- Go standard library `image.Rect(x0, y0, x1, y1)`: "the returned rectangle has
minimum and maximum coordinates swapped if necessary so that it is well-formed". -/
def Rect (x0 y0 x1 y1 : Int) : Rectangle :=
  let (x0, x1) := if x0 > x1 then (x1, x0) else (x0, x1)
  let (y0, y1) := if y0 > y1 then (y1, y0) else (y0, y1)
  { Min := { X := x0, Y := y0 }, Max := { X := x1, Y := y1 } }

/-- A decoded source image (`*image.NRGBA` from `pigo.GetImage`): `Bounds().Max` and the pixels. -/
structure SrcImage where
  MaxX : Int
  MaxY : Int
  Pix : List Nat
  deriving DecidableEq

/-! ## `pigo` -/

/-- The struct `pigo.Detection`. -/
structure Detection where
  Row : Int
  Col : Int
  Scale : Int
  Q : GoFloat
  deriving DecidableEq

/-- The struct `pigo.ImageParams`. -/
structure ImageParams where
  Pixels : List Nat
  Rows : Int
  Cols : Int
  Dim : Int
  deriving DecidableEq

/-- The struct `pigo.CascadeParams`. -/
structure CascadeParams where
  MinSize : Int
  MaxSize : Int
  ShiftFactor : GoFloat
  ScaleFactor : GoFloat
  ImageParams : ImageParams
  deriving DecidableEq

/-- An unpacked cascade (`*pigo.Pigo`), by the bytes it was unpacked from. -/
structure Classifier where
  packet : Bytes
  deriving DecidableEq

/-! ## `gg` -/

/-- A call on the drawing context.  An argument the handler passes as `float64(e)` for an
`int` expression `e` is recorded as the value of `e`. -/
inductive DrawOp where
  | DrawImage (src : SrcImage) (x y : Int)
  | DrawArc (x y r : Int)
  | DrawRectangle (x y w h : Int)
  | SetLineWidth (w : Int)
  | SetStrokeStyle (r g b a : Nat)
  | Stroke
  deriving DecidableEq

/-- A `*gg.Context` that is not nil: its size and the calls made on it, oldest first. -/
structure Context where
  width : Int
  height : Int
  ops : List DrawOp
  deriving DecidableEq

/-- The context `gg.NewContext(width, height)`. -/
def NewContext (width height : Int) : Context := { width := width, height := height, ops := [] }

/-- One more call on a context. -/
def Context.call (dc : Context) (op : DrawOp) : Context := { dc with ops := dc.ops ++ [op] }

/-! ## The handler's types -/

/-- The struct `FaceDetector`. -/
structure FaceDetector where
  cascadeFile : String
  minSize : Int
  maxSize : Int
  shiftFactor : GoFloat
  scaleFactor : GoFloat
  iouThreshold : GoFloat
  deriving DecidableEq

/-- The struct `DetectionResult`. -/
structure DetectionResult where
  Faces : GoSlice Rectangle
  ImageBase64 : String
  ImageName : String
  deriving DecidableEq

/-- The struct `multipart.FileHeader`, by its `Filename`. -/
structure FileHeader where
  Filename : String
  deriving DecidableEq

/-- The struct `multipart.Form`, by its field `File`, a `map[string][]*FileHeader`:
`none` is the nil map, `some kvs` a map with the entries `kvs`. -/
structure Form where
  File : Option (List (String × List FileHeader))

/-- The part of `*http.Request` the handler reads: `MultipartForm` (`none` when nil). -/
structure Request where
  MultipartForm : Option Form

/-- External calls, as they are recorded in a run's trace. -/
inductive Event where
  | Open (filename : String)
  | TempFile
  | Copy (tmp : String)
  | NewFaceDetector
  | DetectFaces (source : String)
  | GetImage (source : String)
  | ReadFile (path : String)
  | Unpack
  | RunCascade
  | ClusterDetections
  | DrawFaces
  | OpenFile (path : String)
  | Encode (path : String)
  deriving DecidableEq

/-- The answers of everything outside `handler.go`. -/
structure Env where
  /-- The call `r.ParseMultipartForm(32 << 20)`: its error and the request as it leaves it. -/
  ParseMultipartForm : Request → Option Err × Request
  /-- The call `h.Open()` in iteration `i`: its error. -/
  Open : Nat → FileHeader → Option Err
  /-- The call `ioutil.TempFile("/tmp", "image")` in iteration `i`: the file's name or the error. -/
  TempFile : Nat → Except Err String
  /-- The call `io.Copy(tmpfile, file)` into the named temporary file: its error. -/
  Copy : String → Option Err
  /-- The call `time.Now().UnixNano()` in iteration `i`. -/
  UnixNano : Nat → Int
  /-- The call `pigo.GetImage(source)`. -/
  GetImage : String → Except Err SrcImage
  /-- The call `pigo.RgbToGrayscale(src)`. -/
  RgbToGrayscale : SrcImage → List Nat
  /-- The call `ioutil.ReadFile(path)`: both results. -/
  ReadFile : String → Bytes × Option Err
  /-- The call `Unpack(packet)` of pigo: `none` when the call panics, as it does when it
  indexes past the end of a packet that is cut short. -/
  Unpack : Bytes → Option (Except Err Classifier)
  /-- The call `classifier.RunCascade(cParams, angle)`. -/
  RunCascade : Classifier → CascadeParams → GoFloat → GoSlice Detection
  /-- The call `classifier.ClusterDetections(faces, iouThreshold)`. -/
  ClusterDetections : Classifier → GoSlice Detection → GoFloat → GoSlice Detection
  /-- The call `os.OpenFile(filename, os.O_CREATE|os.O_RDWR, 0755)`: its error. -/
  OpenFile : String → Option Err
  /-- The call `jpeg.Encode(output, img, &jpeg.Options{Quality: 100})` on the named file: its error. -/
  Encode : String → Context → Option Err

/-! ## `DrawFaces` -/

/-- The local `qThresh` of `DrawFaces`: `float32` 5.0. -/
def qThresh : GoFloat := .fin 5

/-- The rectangle `DrawFaces` appends for a face:
`image.Rect(face.Col-face.Scale/2, face.Row-face.Scale/2, face.Scale, face.Scale)`. -/
def faceRect (face : Detection) : Rectangle :=
  Rect (intSub face.Col (intDiv face.Scale 2)) (intSub face.Row (intDiv face.Scale 2))
    face.Scale face.Scale

/-- One iteration of the loop of `DrawFaces` on the state `(rects, dc)`. -/
def drawFace (isCircle : Bool) (st : GoSlice Rectangle × Context) (face : Detection) :
    GoSlice Rectangle × Context :=
  if face.Q.gt qThresh then
    let dc1 :=
      if isCircle then
        st.2.call (.DrawArc face.Col face.Row (intDiv face.Scale 2))
      else
        st.2.call (.DrawRectangle (intSub face.Col (intDiv face.Scale 2))
          (intSub face.Row (intDiv face.Scale 2)) face.Scale face.Scale)
    let rects := goAppend st.1 (faceRect face)
    let dc2 := ((dc1.call (.SetLineWidth 2)).call (.SetStrokeStyle 255 255 0 255)).call .Stroke
    (rects, dc2)
  else st

/-- What a call of `DrawFaces` that returns leaves behind: its three results, the package
variable `dc`, and the external calls made. -/
structure DrawOut where
  rects : GoSlice Rectangle
  image : Bytes
  err : Option Err
  dc : Context
  trace : List Event
  deriving DecidableEq

/-- The method `DrawFaces(faces, isCircle)`, run with the package variable `dc` and the
clock reading `now`.  With `dc` nil the first use of `dc` panics (at the latest `dc.Image()`). -/
def DrawFaces (env : Env) (now : Int) (faces : GoSlice Detection) (isCircle : Bool)
    (dc : Option Context) : Option DrawOut :=
  match dc with
  | none => none
  | some dc0 =>
    let st := faces.toList.foldl (drawFace isCircle) (none, dc0)
    let rects := st.1
    let img := st.2
    let filename := "/tmp/" ++ toString now ++ ".jpg"
    match env.OpenFile filename with
    | some err =>
      some { rects := none, image := [], err := some err, dc := img,
             trace := [.DrawFaces, .OpenFile filename] }
    | none =>
      let _ignored := env.Encode filename img
      let rf := env.ReadFile filename
      some { rects := rects, image := rf.1, err := rf.2, dc := img,
             trace := [.DrawFaces, .OpenFile filename, .Encode filename, .ReadFile filename] }

/-! ## `NewFaceDetector` and `DetectFaces` -/

/-- The constructor `NewFaceDetector(cf, minSize, maxSize, shf, scf, iou)`. -/
def NewFaceDetector (cf : String) (minSize maxSize : Int) (shf scf iou : GoFloat) : FaceDetector :=
  { cascadeFile := cf, minSize := minSize, maxSize := maxSize,
    shiftFactor := shf, scaleFactor := scf, iouThreshold := iou }

/-- What a call of `DetectFaces` leaves behind: its two results when it returns, the package
variable `dc`, and the external calls made. -/
structure DetectOut where
  faces : GoSlice Detection
  err : Option Err
  dc : Option Context
  trace : List Event
  /-- The call did not return: it panicked inside `Unpack`, and `faces` and `err` are no
  results. -/
  panicked : Bool
  deriving DecidableEq

/-- The `pigo.CascadeParams` literal `DetectFaces` builds for the image `src`. -/
def cascadeParams (env : Env) (fd : FaceDetector) (src : SrcImage) : CascadeParams :=
  { MinSize := fd.minSize, MaxSize := fd.maxSize,
    ShiftFactor := fd.shiftFactor, ScaleFactor := fd.scaleFactor,
    ImageParams := { Pixels := env.RgbToGrayscale src, Rows := src.MaxY, Cols := src.MaxX,
                     Dim := src.MaxX } }

/-- The method `DetectFaces(source)`, run with the package variable `dc`. -/
def DetectFaces (env : Env) (fd : FaceDetector) (source : String) (dc : Option Context) :
    DetectOut :=
  match env.GetImage source with
  | .error err =>
    { faces := none, err := some err, dc := dc, panicked := false,
      trace := [.DetectFaces source, .GetImage source] }
  | .ok src =>
    let cols := src.MaxX
    let rows := src.MaxY
    let dc1 := (NewContext cols rows).call (.DrawImage src 0 0)
    let cParams := cascadeParams env fd src
    match env.ReadFile fd.cascadeFile with
    | (_, some err) =>
      { faces := none, err := some err, dc := some dc1, panicked := false,
        trace := [.DetectFaces source, .GetImage source, .ReadFile fd.cascadeFile] }
    | (cascadeFile, none) =>
      match env.Unpack cascadeFile with
      | none =>
        { faces := none, err := none, dc := some dc1, panicked := true,
          trace := [.DetectFaces source, .GetImage source, .ReadFile fd.cascadeFile, .Unpack] }
      | some (.error err) =>
        { faces := none, err := some err, dc := some dc1, panicked := false,
          trace := [.DetectFaces source, .GetImage source, .ReadFile fd.cascadeFile, .Unpack] }
      | some (.ok classifier) =>
        let faces := env.RunCascade classifier cParams (.fin 0)
        let faces := env.ClusterDetections classifier faces fd.iouThreshold
        { faces := faces, err := none, dc := some dc1, panicked := false,
          trace := [.DetectFaces source, .GetImage source, .ReadFile fd.cascadeFile, .Unpack,
                    .RunCascade, .ClusterDetections] }

/-! ## `encoding/base64` and `encoding/json` -/

/-- The alphabet of `base64.StdEncoding` (RFC 4648, section 4). -/
def encodeStd : List Char :=
  "ABCDEFGHIJKLMNOPQRSTUVWXYZabcdefghijklmnopqrstuvwxyz0123456789+/".toList

/-- The character for a 6-bit value. -/
def encodeStdChar (v : Nat) : Char := encodeStd.getD (v % 64) 'A'

/-- The characters of `base64.StdEncoding.EncodeToString(src)`: four per three bytes, the last
group padded with `=`. -/
def encodeStdChars : Bytes → List Char
  | [] => []
  | [a] =>
    let v := (a % 256) * 65536
    [encodeStdChar (v / 262144), encodeStdChar (v / 4096), '=', '=']
  | [a, b] =>
    let v := (a % 256) * 65536 + (b % 256) * 256
    [encodeStdChar (v / 262144), encodeStdChar (v / 4096), encodeStdChar (v / 64), '=']
  | a :: b :: c :: rest =>
    let v := (a % 256) * 65536 + (b % 256) * 256 + c % 256
    encodeStdChar (v / 262144) :: encodeStdChar (v / 4096) :: encodeStdChar (v / 64) ::
      encodeStdChar v :: encodeStdChars rest

/-- Go standard library `base64.StdEncoding.EncodeToString(src)`. -/
def EncodeToString (src : Bytes) : String := String.mk (encodeStdChars src)

/-- A JSON document, by its value. -/
inductive Json where
  | null
  | num (n : Int)
  | str (s : String)
  | arr (items : List Json)
  | obj (members : List (String × Json))

/-- The document `json.Marshal` writes for an `image.Point`. -/
def marshalPoint (p : Point) : Json := .obj [("X", .num p.X), ("Y", .num p.Y)]

/-- The document `json.Marshal` writes for an `image.Rectangle`. -/
def marshalRectangle (r : Rectangle) : Json :=
  .obj [("Min", marshalPoint r.Min), ("Max", marshalPoint r.Max)]

/-- The document `json.Marshal` writes for a slice: `null` for the nil slice, else an array. -/
def marshalSlice {α : Type} (f : α → Json) : GoSlice α → Json
  | none => .null
  | some xs => .arr (xs.map f)

/-- The document `json.Marshal` writes for a `DetectionResult`. -/
def marshalResult (d : DetectionResult) : Json :=
  .obj [("Faces", marshalSlice marshalRectangle d.Faces),
        ("ImageBase64", .str d.ImageBase64),
        ("ImageName", .str d.ImageName)]

/-- The document `json.Marshal(outcome)` writes (it has no error for this type). -/
def Marshal (outcome : GoSlice DetectionResult) : Json := marshalSlice marshalResult outcome

/-! ## `verifyRequest` and `Handle` -/

/-- What the handler wrote to the `http.ResponseWriter`. -/
inductive Body where
  | text (s : String)
  | json (j : Json)

/-- The response: the status written and the body. -/
structure Response where
  status : Nat
  body : Body

/-- Go standard library `http.Error(w, msg, code)`: status `code`, body `msg` and a newline. -/
def httpError (msg : String) (code : Nat) : Response :=
  { status := code, body := .text (msg ++ "\n") }

/-- The status `http.StatusBadRequest`. -/
def StatusBadRequest : Nat := 400

/-- The status `http.StatusInternalServerError`. -/
def StatusInternalServerError : Nat := 500

/-- The status `http.StatusOK`. -/
def StatusOK : Nat := 200

/-- The two-result map index `m[key]` on a `map[string][]*FileHeader`: `none` when `ok` is false. -/
def mapIndex (m : Option (List (String × List FileHeader))) (key : String) :
    Option (List FileHeader) :=
  match m with
  | none => none
  | some kvs => kvs.lookup key

/-- The function `verifyRequest(r)`: `some none` is the nil error; it panics when
`r.MultipartForm` is nil. -/
def verifyRequest (r : Request) : Option (Option Err) :=
  match r.MultipartForm with
  | none => none
  | some form =>
    match mapIndex form.File "image" with
    | none => some (some "No image uploaded. Please try again")
    | some _ => some none

/-- The `float64` constant 0.1. -/
def f64_0_1 : GoFloat := .fin (3602879701896397 / 36028797018963968)

/-- The `float64` constant 1.1. -/
def f64_1_1 : GoFloat := .fin (2476979795053773 / 2251799813685248)

/-- The `float64` constant 0.18. -/
def f64_0_18 : GoFloat := .fin (3242591731706757 / 18014398509481984)

/-- The detector `Handle` constructs in every iteration. -/
def handleDetector : FaceDetector :=
  NewFaceDetector "./data/facefinder" 20 2000 f64_0_1 f64_1_1 f64_0_18

/-- What one iteration of the loop of `Handle` leaves behind: the record it appends, or the
response it wrote before returning from `Handle`. -/
structure FileOut where
  res : Except Response DetectionResult
  dc : Option Context
  trace : List Event

/-- The body of the loop of `Handle`, iteration `i`, for the file header `h`.  A panic of
`DetectFaces` or of `DrawFaces` is a panic of `Handle`. -/
def handleFile (env : Env) (i : Nat) (h : FileHeader) (dc : Option Context) : Option FileOut :=
  match env.Open i h with
  | some _ =>
    some { res := .error (httpError "failed to get media form file" StatusBadRequest),
           dc := dc, trace := [.Open h.Filename] }
  | none =>
    match env.TempFile i with
    | .error _ =>
      some { res := .error (httpError "Unable to create temp file" StatusInternalServerError),
             dc := dc, trace := [.Open h.Filename, .TempFile] }
    | .ok tmpfile =>
      match env.Copy tmpfile with
      | some _ =>
        some { res := .error (httpError "Unable to copy the source URI to the destionation file"
                        StatusInternalServerError),
               dc := dc, trace := [.Open h.Filename, .TempFile, .Copy tmpfile] }
      | none =>
        let fd := handleDetector
        let det := DetectFaces env fd tmpfile dc
        let tr := [.Open h.Filename, .TempFile, .Copy tmpfile, .NewFaceDetector] ++ det.trace
        match det.panicked with
        | true => none
        | false =>
          match det.err with
          | some _ =>
            some { res := .error (httpError "Error on face detection" StatusInternalServerError),
                   dc := det.dc, trace := tr }
          | none =>
            match DrawFaces env (env.UnixNano i) det.faces false det.dc with
            | none => none
            | some out =>
              match out.err with
              | some _ =>
                some { res := .error (httpError "Error creating image output"
                                StatusInternalServerError),
                       dc := some out.dc, trace := tr ++ out.trace }
              | none =>
                some { res := .ok { Faces := out.rects,
                                    ImageBase64 := EncodeToString out.image,
                                    ImageName := h.Filename },
                       dc := some out.dc, trace := tr ++ out.trace }

/-- What the loop of `Handle` leaves behind: the slice `outcome`, or the response written
before returning from `Handle`. -/
structure LoopOut where
  res : Except Response (GoSlice DetectionResult)
  dc : Option Context
  trace : List Event

/-- The loop of `Handle` from iteration `i` on, over the remaining headers. -/
def handleLoop (env : Env) : Nat → List FileHeader → GoSlice DetectionResult → Option Context →
    Option LoopOut
  | _, [], outcome, dc => some { res := .ok outcome, dc := dc, trace := [] }
  | i, h :: hs, outcome, dc =>
    match handleFile env i h dc with
    | none => none
    | some out =>
      match out.res with
      | .error resp => some { res := .error resp, dc := out.dc, trace := out.trace }
      | .ok resp =>
        match handleLoop env (i + 1) hs (goAppend outcome resp) out.dc with
        | none => none
        | some rest => some { rest with trace := out.trace ++ rest.trace }

/-- What a call of `Handle` that returns leaves behind. -/
structure HandleOut where
  resp : Response
  dc : Option Context
  trace : List Event

/-- The function `Handle(w, r)`, run with the package variable `dc`. -/
def Handle (env : Env) (r : Request) (dc : Option Context) : Option HandleOut :=
  match env.ParseMultipartForm r with
  | (some _, _) =>
    some { resp := httpError "failed to parse multipart message" StatusBadRequest,
           dc := dc, trace := [] }
  | (none, r) =>
    match r.MultipartForm with
    | none =>
      some { resp := httpError "expecting multipart form file" StatusBadRequest,
             dc := dc, trace := [] }
    | some form =>
      match form.File with
      | none =>
        some { resp := httpError "expecting multipart form file" StatusBadRequest,
               dc := dc, trace := [] }
      | some _ =>
        match verifyRequest r with
        | none => none
        | some (some err) =>
          some { resp := httpError err StatusBadRequest, dc := dc, trace := [] }
        | some none =>
          match handleLoop env 0 ((mapIndex form.File "image").getD []) none dc with
          | none => none
          | some out =>
            match out.res with
            | .error resp => some { resp := resp, dc := out.dc, trace := out.trace }
            | .ok outcome =>
              some { resp := { status := StatusOK, body := .json (Marshal outcome) },
                     dc := out.dc, trace := out.trace }

/-! ## Concrete environments and inputs -/

/-- Stand-in for the bytes of the cascade file `./data/facefinder`. -/
def facefinderBytes : Bytes := [112, 105, 99, 111, 20, 21, 22, 23, 0, 0, 0, 6, 0, 0, 1, 212]

/-- An environment in which every external call succeeds: the decoded image is 640 by 480, and
the classifier reports one face of score 10 and one of score 3 when the minimum window size
does not exceed the maximum, and no detection (a nil slice) otherwise, as the scale loop of
`RunCascade` then has no iteration.  `Unpack` panics on a packet of fewer than 12 bytes,
which it indexes at positions 8 to 11. -/
def okEnv : Env :=
  { ParseMultipartForm := fun r => (none, r)
    Open := fun _ _ => none
    TempFile := fun i => .ok ("/tmp/image" ++ toString i)
    Copy := fun _ => none
    UnixNano := fun i => i
    GetImage := fun _ => .ok { MaxX := 640, MaxY := 480, Pix := [] }
    RgbToGrayscale := fun _ => []
    ReadFile := fun p =>
      if p = "./data/facefinder" then (facefinderBytes, none) else ([255, 216, 255], none)
    Unpack := fun b => if b.length < 12 then none else some (.ok { packet := b })
    RunCascade := fun _ p _ =>
      if p.MinSize ≤ p.MaxSize then
        some [{ Row := 100, Col := 100, Scale := 20, Q := .fin 10 },
              { Row := 50, Col := 60, Scale := 200, Q := .fin 3 }]
      else none
    ClusterDetections := fun _ fs _ => fs
    OpenFile := fun _ => none
    Encode := fun _ _ => none }

/-- A face of score 10 centred at (100, 100) with scale 20. -/
def typicalFace : Detection := { Row := 100, Col := 100, Scale := 20, Q := .fin 10 }

/-- A face of score 3. -/
def weakFace : Detection := { Row := 50, Col := 60, Scale := 200, Q := .fin 3 }

/-- The context `DetectFaces` leaves in `dc` for an empty 640 by 480 image. -/
def typicalContext : Context :=
  (NewContext 640 480).call (.DrawImage { MaxX := 640, MaxY := 480, Pix := [] } 0 0)

/-- What `DrawFaces` leaves behind in `okEnv` at clock reading 0 for `typicalFace` and
`weakFace`, drawn as circles on `typicalContext`. -/
def typicalDrawOut : DrawOut :=
  { rects := some [{ Min := { X := 20, Y := 20 }, Max := { X := 90, Y := 90 } }]
    image := [255, 216, 255]
    err := none
    dc := { width := 640, height := 480,
            ops := [.DrawImage { MaxX := 640, MaxY := 480, Pix := [] } 0 0, .DrawArc 100 100 10,
                    .SetLineWidth 2, .SetStrokeStyle 255 255 0 255, .Stroke] }
    trace := [.DrawFaces, .OpenFile "/tmp/0.jpg", .Encode "/tmp/0.jpg", .ReadFile "/tmp/0.jpg"] }

/-- The context `DetectFaces` leaves in `dc` for an empty image 65536 pixels wide and 1 high. -/
def wideContext : Context :=
  (NewContext 65536 1).call (.DrawImage { MaxX := 65536, MaxY := 1, Pix := [] } 0 0)

/-- An environment in which `jpeg.Encode` refuses an image with a side of 65536 pixels or more,
as the standard library does, leaving the freshly created output file empty; every other call
succeeds, and no face is found. -/
def tooLargeEnv : Env :=
  { ParseMultipartForm := fun r => (none, r)
    Open := fun _ _ => none
    TempFile := fun i => .ok ("/tmp/image" ++ toString i)
    Copy := fun _ => none
    UnixNano := fun i => i
    GetImage := fun _ => .ok { MaxX := 65536, MaxY := 1, Pix := [] }
    RgbToGrayscale := fun _ => []
    ReadFile := fun p => if p = "./data/facefinder" then (facefinderBytes, none) else ([], none)
    Unpack := fun b => if b.length < 12 then none else some (.ok { packet := b })
    RunCascade := fun _ _ _ => none
    ClusterDetections := fun _ fs _ => fs
    OpenFile := fun _ => none
    Encode := fun _ img =>
      if img.width ≥ 65536 ∨ img.height ≥ 65536 then some "jpeg: image is too large to encode"
      else none }

/-- An environment like `okEnv` in which the cascade file is cut short to three bytes, so
that `Unpack` panics on it. -/
def truncatedCascadeEnv : Env :=
  { okEnv with
    ReadFile := fun p =>
      if p = "./data/facefinder" then ([0, 0, 0], none) else ([255, 216, 255], none) }

/-- An environment like `okEnv` in which the cascade file does not exist. -/
def missingCascadeEnv : Env :=
  { okEnv with
    ReadFile := fun p =>
      if p = "./data/facefinder" then
        ([], some "open ./data/facefinder: no such file or directory")
      else ([255, 216, 255], none) }

/-- A request whose multipart form has a file map without the key "image". -/
def noImageRequest : Request :=
  { MultipartForm := some { File := some [("photo", [{ Filename := "a.jpg" }])] } }

/-- A request whose form has two files under "image". -/
def twoFileRequest : Request :=
  { MultipartForm := some { File := some [("image", [{ Filename := "a.jpg" },
                                                     { Filename := "b.jpg" }])] } }

/-- A request whose form has the key "image" with no file under it. -/
def emptyBatchRequest : Request :=
  { MultipartForm := some { File := some [("image", [])] } }

/-- An environment like `okEnv` in which the first upload does not decode. -/
def firstBadEnv : Env :=
  { okEnv with
    GetImage := fun source =>
      if source = "/tmp/image0" then .error "image: unknown format"
      else .ok { MaxX := 640, MaxY := 480, Pix := [] } }

/-- What `DrawFaces` leaves behind in `okEnv` in iteration `i` of the loop of `Handle`. -/
def okDrawOut (i : Nat) : DrawOut :=
  { rects := some [{ Min := { X := 20, Y := 20 }, Max := { X := 90, Y := 90 } }]
    image := [255, 216, 255]
    err := none
    dc := { width := 640, height := 480,
            ops := [.DrawImage { MaxX := 640, MaxY := 480, Pix := [] } 0 0,
                    .DrawRectangle 90 90 20 20,
                    .SetLineWidth 2, .SetStrokeStyle 255 255 0 255, .Stroke] }
    trace := [.DrawFaces, .OpenFile ("/tmp/" ++ toString (i : Int) ++ ".jpg"),
              .Encode ("/tmp/" ++ toString (i : Int) ++ ".jpg"),
              .ReadFile ("/tmp/" ++ toString (i : Int) ++ ".jpg")] }

/-- Iteration `i` of the loop of `Handle` gets through for the header `h`: the upload opens,
the temporary file `tmp` is created and filled, `DetectFaces` on it returns, with a nil error, and
`DrawFaces` on its detections returns `out`, with a nil error. -/
def FileOk (env : Env) (i : Nat) (h : FileHeader) (tmp : String) (out : DrawOut) : Prop :=
  env.Open i h = none ∧ env.TempFile i = .ok tmp ∧ env.Copy tmp = none ∧
  (DetectFaces env handleDetector tmp none).panicked = false ∧
  (DetectFaces env handleDetector tmp none).err = none ∧
  DrawFaces env (env.UnixNano i) (DetectFaces env handleDetector tmp none).faces false
      (DetectFaces env handleDetector tmp none).dc = some out ∧
  out.err = none

/-- The record `Handle` appends for the header `h` when `DrawFaces` returned `out`. -/
def resultAt (out : DrawOut) (h : FileHeader) : DetectionResult :=
  { Faces := out.rects, ImageBase64 := EncodeToString out.image, ImageName := h.Filename }

/-- The external calls of an iteration of the loop of `Handle` in which nothing fails. -/
def okFileTrace (h : FileHeader) (tmp : String) (now : Int) : List Event :=
  [.Open h.Filename, .TempFile, .Copy tmp, .NewFaceDetector,
   .DetectFaces tmp, .GetImage tmp, .ReadFile "./data/facefinder", .Unpack,
   .RunCascade, .ClusterDetections,
   .DrawFaces, .OpenFile ("/tmp/" ++ toString now ++ ".jpg"),
   .Encode ("/tmp/" ++ toString now ++ ".jpg"), .ReadFile ("/tmp/" ++ toString now ++ ".jpg")]

/-- The event is a call of `h.Open()`. -/
def Event.isOpen : Event → Bool
  | .Open _ => true
  | _ => false

/-- The event is a call of `DetectFaces`. -/
def Event.isDetectFaces : Event → Bool
  | .DetectFaces _ => true
  | _ => false

/-- The number of items when the document is an array. -/
def Json.arrayLength : Json → Option Nat
  | .arr items => some items.length
  | _ => none

/-- The document is `null`. -/
def Json.isNull : Json → Bool
  | .null => true
  | _ => false

/-- The number of items when the body is a JSON array. -/
def Body.arrayLength : Body → Option Nat
  | .json j => j.arrayLength
  | .text _ => none

/-- The body is the JSON document `null`. -/
def Body.isNull : Body → Bool
  | .json j => j.isNull
  | .text _ => false

/-- The rectangles a successful `DrawFaces` returns, as the loop builds them: one step per
face, on the slice alone. -/
def rectsStep (rects : GoSlice Rectangle) (face : Detection) : GoSlice Rectangle :=
  if face.Q.gt qThresh then goAppend rects (faceRect face) else rects

end FaasPigo

namespace FaasPigo

/-! ## The loop of `DrawFaces` -/

theorem drawFace_fst (isCircle : Bool) (st : GoSlice Rectangle × Context) (face : Detection) :
    (drawFace isCircle st face).1 = rectsStep st.1 face := by
  unfold drawFace rectsStep
  split <;> rfl

theorem foldl_drawFace_fst (isCircle : Bool) (faces : List Detection) :
    ∀ st : GoSlice Rectangle × Context,
      (faces.foldl (drawFace isCircle) st).1 = faces.foldl rectsStep st.1 := by
  induction faces with
  | nil => intro st; rfl
  | cons f fs ih =>
    intro st
    simp only [List.foldl_cons]
    rw [ih, drawFace_fst]

theorem toList_goAppend {α : Type} (s : GoSlice α) (x : α) :
    (goAppend s x).toList = s.toList ++ [x] := rfl

theorem foldl_rectsStep_toList (faces : List Detection) :
    ∀ rects : GoSlice Rectangle,
      (faces.foldl rectsStep rects).toList =
        rects.toList ++ (faces.filter (fun f => f.Q.gt qThresh)).map faceRect := by
  induction faces with
  | nil => intro rects; simp
  | cons f fs ih =>
    intro rects
    simp only [List.foldl_cons]
    rw [ih]
    unfold rectsStep
    by_cases h : f.Q.gt qThresh = true
    · simp [h, toList_goAppend, List.filter_cons]
    · simp [h, List.filter_cons]

/-- The results of a call of `DrawFaces` that returns, by cases on `os.OpenFile`. -/
theorem DrawFaces_some (env : Env) (now : Int) (faces : GoSlice Detection) (isCircle : Bool)
    (dc0 : Context) :
    ∃ out, DrawFaces env now faces isCircle (some dc0) = some out ∧
      out.dc = (faces.toList.foldl (drawFace isCircle) (none, dc0)).2 ∧
      ((∃ e, env.OpenFile ("/tmp/" ++ toString now ++ ".jpg") = some e ∧
          out.rects = none ∧ out.image = [] ∧ out.err = some e) ∨
       (env.OpenFile ("/tmp/" ++ toString now ++ ".jpg") = none ∧
          out.rects = faces.toList.foldl rectsStep none ∧
          out.image = (env.ReadFile ("/tmp/" ++ toString now ++ ".jpg")).1 ∧
          out.err = (env.ReadFile ("/tmp/" ++ toString now ++ ".jpg")).2)) := by
  unfold DrawFaces
  cases h : env.OpenFile ("/tmp/" ++ toString now ++ ".jpg") with
  | some e => simp [h]
  | none => simp [h, foldl_drawFace_fst]

/-- A call of `DrawFaces` returns with a nil error exactly when `dc` is set, the output file
opens and reading it back succeeds. -/
theorem DrawFaces_success_iff (env : Env) (now : Int) (faces : GoSlice Detection)
    (isCircle : Bool) (dc : Option Context) :
    (∃ out, DrawFaces env now faces isCircle dc = some out ∧ out.err = none) ↔
      (dc ≠ none ∧ env.OpenFile ("/tmp/" ++ toString now ++ ".jpg") = none ∧
        (env.ReadFile ("/tmp/" ++ toString now ++ ".jpg")).2 = none) := by
  cases dc with
  | none => simp [DrawFaces]
  | some dc0 =>
    obtain ⟨out, hout, -, h⟩ := DrawFaces_some env now faces isCircle dc0
    constructor
    · rintro ⟨out2, h2, herr⟩
      rw [hout] at h2
      cases h2
      rcases h with ⟨e, -, -, -, he⟩ | ⟨ho, -, -, he⟩
      · rw [he] at herr; cases herr
      · exact ⟨by simp, ho, by rw [← he]; exact herr⟩
    · rintro ⟨-, ho, hr⟩
      refine ⟨out, hout, ?_⟩
      rcases h with ⟨e, he, -⟩ | ⟨-, -, -, he⟩
      · rw [ho] at he; cases he
      · rw [he]; exact hr

/-- The rectangles of a call of `DrawFaces` that returns a nil error. -/
theorem DrawFaces_rects (env : Env) (now : Int) (faces : GoSlice Detection) (isCircle : Bool)
    (dc : Option Context) (out : DrawOut)
    (hret : DrawFaces env now faces isCircle dc = some out) (herr : out.err = none) :
    out.rects = faces.toList.foldl rectsStep none := by
  cases dc with
  | none => simp [DrawFaces] at hret
  | some dc0 =>
    obtain ⟨out2, hout, -, h⟩ := DrawFaces_some env now faces isCircle dc0
    rw [hout] at hret
    cases hret
    rcases h with ⟨e, -, -, -, he⟩ | ⟨-, hr, -, -⟩
    · rw [he] at herr; cases herr
    · exact hr

/-- C1. When `DrawFaces` returns a nil error, the rectangles it returns are, in order, the
rectangles of exactly the detections whose score `Q` is greater than 5.0: one per such
detection and none for any other; the list is empty when no score is greater than 5.0.
This holds for either value of `isCircle`. -/
theorem DrawFaces_one_rect_per_face_above_threshold (env : Env) (now : Int)
    (faces : GoSlice Detection) (isCircle : Bool) (dc : Option Context) (out : DrawOut)
    (hret : DrawFaces env now faces isCircle dc = some out) (herr : out.err = none) :
    out.rects.toList = (faces.toList.filter (fun f => f.Q.gt (.fin 5))).map faceRect ∧
    out.rects.toList.length = faces.toList.countP (fun f => f.Q.gt (.fin 5)) ∧
    ((∀ f ∈ faces.toList, f.Q.gt (.fin 5) = false) → out.rects.toList = []) ∧
    ((∀ f ∈ faces.toList, ∃ q : ℚ, f.Q = .fin q ∧ q ≤ 5) → out.rects.toList = []) := by
  have h := DrawFaces_rects env now faces isCircle dc out hret herr
  have hl : out.rects.toList = (faces.toList.filter (fun f => f.Q.gt (.fin 5))).map faceRect := by
    rw [h, foldl_rectsStep_toList]
    simp [GoSlice.toList, qThresh]
  have hempty : (∀ f ∈ faces.toList, f.Q.gt (.fin 5) = false) → out.rects.toList = [] := by
    intro hall
    rw [hl]
    have : faces.toList.filter (fun f => f.Q.gt (.fin 5)) = [] := by
      rw [List.filter_eq_nil_iff]
      intro f hf
      simp [hall f hf]
    rw [this]
    rfl
  refine ⟨hl, ?_, hempty, ?_⟩
  · rw [hl, List.length_map, List.countP_eq_length_filter]
  · intro hall
    apply hempty
    intro f hf
    obtain ⟨q, hq, hle⟩ := hall f hf
    rw [hq]
    simp only [GoFloat.gt, decide_eq_false_iff_not, not_lt]
    exact hle

/-- C1, at a concrete input: of a face of score 10 and a face of score 3 only the first gets
a rectangle. -/
theorem DrawFaces_one_rect_per_face_above_threshold_witness :
    DrawFaces okEnv 0 (some [typicalFace, weakFace]) true (some typicalContext)
        = some typicalDrawOut ∧
    typicalDrawOut.err = none ∧
    typicalDrawOut.rects.toList =
      (([typicalFace, weakFace] : List Detection).filter (fun f => f.Q.gt (.fin 5))).map faceRect ∧
    typicalDrawOut.rects.toList.length =
      ([typicalFace, weakFace] : List Detection).countP (fun f => f.Q.gt (.fin 5)) :=
  ⟨by decide, by decide,
    (DrawFaces_one_rect_per_face_above_threshold okEnv 0 (some [typicalFace, weakFace]) true
      (some typicalContext) typicalDrawOut (by decide) (by decide)).1,
    (DrawFaces_one_rect_per_face_above_threshold okEnv 0 (some [typicalFace, weakFace]) true
      (some typicalContext) typicalDrawOut (by decide) (by decide)).2.1⟩

/-! ## Geometry of the returned rectangles -/

theorem wrapInt_of_isInt (x : Int) (h : IsInt x) : wrapInt x = x := by
  unfold IsInt at h
  unfold wrapInt
  omega

theorem isInt_tdiv_two (x : Int) (h : IsInt x) : IsInt (x.tdiv 2) := by
  unfold IsInt at *
  rcases Int.le_total 0 x with hx | hx
  · rw [Int.tdiv_eq_ediv hx (by decide)]
    omega
  · have h2 : x.tdiv 2 = -((-x) / 2) := by
      rw [← Int.tdiv_eq_ediv (by omega) (by decide), Int.neg_tdiv, Int.neg_neg]
    rw [h2]
    omega

theorem Rect_eq_min_max (x0 y0 x1 y1 : Int) :
    Rect x0 y0 x1 y1 = { Min := { X := min x0 x1, Y := min y0 y1 },
                         Max := { X := max x0 x1, Y := max y0 y1 } } := by
  unfold Rect
  by_cases hx : x0 > x1 <;> by_cases hy : y0 > y1 <;>
    simp only [hx, hy, if_true, if_false, Rectangle.mk.injEq, Point.mk.injEq] <;>
    omega

/-- The rectangle `DrawFaces` appends for a face, by what `image.Rect` makes of its four
arguments: on each axis Min is the smaller and Max the larger of `c - scale/2` and `scale`
(`c` the column for X, the row for Y; `-` and `/` those of Go `int`), and Go `c - scale/2` is
the mathematical value unless it overflows. -/
theorem DrawFaces_rect_corners (env : Env) (now : Int) (faces : GoSlice Detection)
    (isCircle : Bool) (dc : Option Context) (out : DrawOut)
    (hret : DrawFaces env now faces isCircle dc = some out) (herr : out.err = none) :
    out.rects.toList = (faces.toList.filter (fun f => f.Q.gt (.fin 5))).map (fun d =>
      ({ Min := { X := min (intSub d.Col (intDiv d.Scale 2)) d.Scale,
                  Y := min (intSub d.Row (intDiv d.Scale 2)) d.Scale },
         Max := { X := max (intSub d.Col (intDiv d.Scale 2)) d.Scale,
                  Y := max (intSub d.Row (intDiv d.Scale 2)) d.Scale } } : Rectangle)) ∧
    ∀ d : Detection,
      (intSub d.Col (intDiv d.Scale 2) ≤ d.Scale → intSub d.Row (intDiv d.Scale 2) ≤ d.Scale →
        faceRect d = { Min := { X := intSub d.Col (intDiv d.Scale 2),
                                Y := intSub d.Row (intDiv d.Scale 2) },
                       Max := { X := d.Scale, Y := d.Scale } }) ∧
      (IsInt d.Scale → IsInt (d.Col - d.Scale.tdiv 2) →
        intSub d.Col (intDiv d.Scale 2) = d.Col - d.Scale.tdiv 2) ∧
      (IsInt d.Scale → IsInt (d.Row - d.Scale.tdiv 2) →
        intSub d.Row (intDiv d.Scale 2) = d.Row - d.Scale.tdiv 2) := by
  have h := DrawFaces_rects env now faces isCircle dc out hret herr
  refine ⟨?_, fun d => ⟨?_, ?_, ?_⟩⟩
  · rw [h, foldl_rectsStep_toList]
    simp only [GoSlice.toList, Option.getD_none, List.nil_append, qThresh]
    apply List.map_congr_left
    intro d _
    exact Rect_eq_min_max _ _ _ _
  · intro hx hy
    unfold faceRect
    rw [Rect_eq_min_max, min_eq_left hx, min_eq_left hy, max_eq_right hx, max_eq_right hy]
  · intro hs hx
    unfold intSub intDiv
    rw [wrapInt_of_isInt _ (isInt_tdiv_two _ hs), wrapInt_of_isInt _ hx]
  · intro hs hy
    unfold intSub intDiv
    rw [wrapInt_of_isInt _ (isInt_tdiv_two _ hs), wrapInt_of_isInt _ hy]

/-- C2, the defect: for the face of score 10 at row 100, column 100 with scale 20, `DrawFaces`
draws the window with corner (90, 90), width 20 and height 20, and returns for it the rectangle
with Min (20, 20) and Max (90, 90).  The Min is not `(col - scale/2, row - scale/2)`, the Max is
not `(scale, scale)`, and the rectangle is not the window drawn, from (90, 90) to (110, 110):
`image.Rect` takes two corners, is given a corner, a width and a height, and orders the
coordinates it is given. -/
theorem DrawFaces_typicalFace_corners_swapped :
    typicalFace.Q.gt (.fin 5) = true ∧
    (DrawFaces okEnv 0 (some [typicalFace]) false (some typicalContext)).map
        (fun out => (out.rects, out.err)) = some (some [faceRect typicalFace], none) ∧
    (DrawFaces okEnv 0 (some [typicalFace]) false (some typicalContext)).map
        (fun out => decide (DrawOp.DrawRectangle 90 90 20 20 ∈ out.dc.ops)) = some true ∧
    (faceRect typicalFace).Min = { X := 20, Y := 20 } ∧
    (faceRect typicalFace).Max = { X := 90, Y := 90 } ∧
    (faceRect typicalFace).Min ≠
      { X := typicalFace.Col - typicalFace.Scale.tdiv 2,
        Y := typicalFace.Row - typicalFace.Scale.tdiv 2 } ∧
    (faceRect typicalFace).Max ≠ { X := typicalFace.Scale, Y := typicalFace.Scale } ∧
    faceRect typicalFace ≠ { Min := { X := 90, Y := 90 }, Max := { X := 110, Y := 110 } } := by
  decide

/-- C10. The rectangles `DrawFaces` returns do not depend on `isCircle`: in the same
environment, at the same clock reading and with the same `dc`, the call with `isCircle` true
returns exactly when the call with `isCircle` false does, and with the same rectangle slice. -/
theorem DrawFaces_rects_independent_of_isCircle (env : Env) (now : Int)
    (faces : GoSlice Detection) (dc : Option Context) :
    (DrawFaces env now faces true dc).map (fun out => out.rects) =
      (DrawFaces env now faces false dc).map (fun out => out.rects) := by
  cases dc with
  | none => rfl
  | some dc0 =>
    unfold DrawFaces
    cases h : env.OpenFile ("/tmp/" ++ toString now ++ ".jpg") with
    | some e => simp [h]
    | none => simp [h, foldl_drawFace_fst]

/-- C6, the defect: for an image 65536 pixels wide `jpeg.Encode` fails, and `DrawFaces` still
returns a nil error, with an empty byte slice as the image. -/
theorem DrawFaces_drops_encode_error :
    tooLargeEnv.Encode "/tmp/0.jpg" wideContext = some "jpeg: image is too large to encode" ∧
    (DrawFaces tooLargeEnv 0 none false (some wideContext)).map
        (fun out => (out.rects, out.image, out.err)) = some (none, [], none) := by
  decide

/-! ## `DetectFaces` and `NewFaceDetector` -/

/-- The results of `DetectFaces` when the image decodes, the cascade file is read and it
unpacks. -/
theorem DetectFaces_ok (env : Env) (fd : FaceDetector) (source : String) (dc : Option Context)
    (src : SrcImage) (packet : Bytes) (classifier : Classifier)
    (himg : env.GetImage source = .ok src) (hread : env.ReadFile fd.cascadeFile = (packet, none))
    (hunpack : env.Unpack packet = some (.ok classifier)) :
    DetectFaces env fd source dc =
      { faces := env.ClusterDetections classifier
          (env.RunCascade classifier (cascadeParams env fd src) (.fin 0)) fd.iouThreshold
        err := none
        dc := some ((NewContext src.MaxX src.MaxY).call (.DrawImage src 0 0))
        panicked := false
        trace := [.DetectFaces source, .GetImage source, .ReadFile fd.cascadeFile, .Unpack,
                  .RunCascade, .ClusterDetections] } := by
  unfold DetectFaces
  simp only [himg, hread, hunpack]

/-- A call of `DetectFaces` that returns a nil error has had all three steps succeed. -/
theorem DetectFaces_err_none (env : Env) (fd : FaceDetector) (source : String)
    (dc : Option Context) (hp : (DetectFaces env fd source dc).panicked = false)
    (h : (DetectFaces env fd source dc).err = none) :
    ∃ src packet classifier, env.GetImage source = .ok src ∧
      env.ReadFile fd.cascadeFile = (packet, none) ∧
      env.Unpack packet = some (.ok classifier) := by
  cases himg : env.GetImage source with
  | error e => simp [DetectFaces, himg] at h
  | ok src =>
    rcases hread : env.ReadFile fd.cascadeFile with ⟨packet, rerr⟩
    cases rerr with
    | some e => simp [DetectFaces, himg, hread] at h
    | none =>
      cases hunpack : env.Unpack packet with
      | none => simp [DetectFaces, himg, hread, hunpack] at hp
      | some res =>
        cases res with
        | error e => simp [DetectFaces, himg, hread, hunpack] at h
        | ok classifier => exact ⟨src, packet, classifier, rfl, rfl, hunpack⟩

/-- The error and the panic of `DetectFaces`, and its trace, do not depend on the incoming
`dc`. -/
theorem DetectFaces_err_dc (env : Env) (fd : FaceDetector) (source : String)
    (dc : Option Context) :
    (DetectFaces env fd source dc).err = (DetectFaces env fd source none).err ∧
    (DetectFaces env fd source dc).panicked = (DetectFaces env fd source none).panicked ∧
    (DetectFaces env fd source dc).trace = (DetectFaces env fd source none).trace := by
  cases himg : env.GetImage source with
  | error e => simp [DetectFaces, himg]
  | ok src =>
    rcases hread : env.ReadFile fd.cascadeFile with ⟨packet, rerr⟩
    cases rerr with
    | some e => simp [DetectFaces, himg, hread]
    | none =>
      cases hunpack : env.Unpack packet with
      | none => simp [DetectFaces, himg, hread, hunpack]
      | some res =>
        cases res with
        | error e => simp [DetectFaces, himg, hread, hunpack]
        | ok classifier => simp [DetectFaces, himg, hread, hunpack]

/-- A call of `DetectFaces` that panics has no error result, so a call with an error has
returned. -/
theorem DetectFaces_panicked_err (env : Env) (fd : FaceDetector) (source : String)
    (dc : Option Context) (h : (DetectFaces env fd source dc).err ≠ none) :
    (DetectFaces env fd source dc).panicked = false := by
  cases himg : env.GetImage source with
  | error e => simp [DetectFaces, himg]
  | ok src =>
    rcases hread : env.ReadFile fd.cascadeFile with ⟨packet, rerr⟩
    cases rerr with
    | some e => simp [DetectFaces, himg, hread]
    | none =>
      cases hunpack : env.Unpack packet with
      | none => simp [DetectFaces, himg, hread, hunpack] at h
      | some res =>
        cases res with
        | error e => simp [DetectFaces, himg, hread, hunpack]
        | ok classifier => simp [DetectFaces, himg, hread, hunpack]

/-- A call of `DetectFaces` that returns a nil error overwrites `dc`: nothing of the incoming
`dc` is left in its results. -/
theorem DetectFaces_dc_irrelevant (env : Env) (fd : FaceDetector) (source : String)
    (dc : Option Context) (hp : (DetectFaces env fd source none).panicked = false)
    (h : (DetectFaces env fd source none).err = none) :
    DetectFaces env fd source dc = DetectFaces env fd source none := by
  obtain ⟨src, packet, classifier, h1, h2, h3⟩ := DetectFaces_err_none env fd source none hp h
  rw [DetectFaces_ok env fd source dc src packet classifier h1 h2 h3,
    DetectFaces_ok env fd source none src packet classifier h1 h2 h3]

/-- C9 fails as stated: on a cascade file cut short to three bytes, which is read without
error, `Unpack` panics, and `DetectFaces` panics with it: it returns no error and no slice. -/
theorem DetectFaces_truncated_cascade_panics :
    truncatedCascadeEnv.ReadFile "./data/facefinder" = ([0, 0, 0], none) ∧
    truncatedCascadeEnv.Unpack [0, 0, 0] = none ∧
    (DetectFaces truncatedCascadeEnv handleDetector "/tmp/image0" none).panicked = true ∧
    (DetectFaces truncatedCascadeEnv handleDetector "/tmp/image0" none).err = none ∧
    Handle truncatedCascadeEnv twoFileRequest none = none := by
  exact ⟨by decide, rfl, by decide, by decide, rfl⟩

/-- C9, amended. `DetectFaces` returns a non-nil error exactly when `pigo.GetImage` fails on
the source, or reading the cascade file fails, or `Unpack` returns an error for the bytes read;
it panics, returning nothing, exactly when the image decodes, the cascade file is read and
`Unpack` panics on the bytes read.  Whenever it returns a non-nil error or panics, no detection
slice is produced and neither `RunCascade` nor `ClusterDetections` has been called. -/
theorem DetectFaces_error_or_panic (env : Env) (fd : FaceDetector) (source : String)
    (dc : Option Context) :
    (((DetectFaces env fd source dc).panicked = false ∧
        (DetectFaces env fd source dc).err ≠ none) ↔
      ((∃ e, env.GetImage source = .error e) ∨
       (env.ReadFile fd.cascadeFile).2 ≠ none ∨
       (∃ e, env.Unpack (env.ReadFile fd.cascadeFile).1 = some (.error e)))) ∧
    ((DetectFaces env fd source dc).panicked = true ↔
      ((∃ src, env.GetImage source = .ok src) ∧
       (env.ReadFile fd.cascadeFile).2 = none ∧
       env.Unpack (env.ReadFile fd.cascadeFile).1 = none)) ∧
    (((DetectFaces env fd source dc).err ≠ none ∨
        (DetectFaces env fd source dc).panicked = true) →
      (DetectFaces env fd source dc).faces = none ∧
      Event.RunCascade ∉ (DetectFaces env fd source dc).trace ∧
      Event.ClusterDetections ∉ (DetectFaces env fd source dc).trace) := by
  cases himg : env.GetImage source with
  | error e => simp [DetectFaces, himg]
  | ok src =>
    rcases hread : env.ReadFile fd.cascadeFile with ⟨packet, rerr⟩
    cases rerr with
    | some e => simp [DetectFaces, himg, hread]
    | none =>
      cases hunpack : env.Unpack packet with
      | none => simp [DetectFaces, himg, hread, hunpack]
      | some res =>
        cases res with
        | error e => simp [DetectFaces, himg, hread, hunpack]
        | ok classifier => simp [DetectFaces, himg, hread, hunpack]

/-- C9, amended, at a concrete input: when the cascade file does not exist, `DetectFaces`
returns the error of `ioutil.ReadFile` and a nil slice, and the classifier is not run. -/
theorem DetectFaces_error_or_panic_witness :
    (DetectFaces missingCascadeEnv handleDetector "/tmp/image0" none).err ≠ none ∧
    (DetectFaces missingCascadeEnv handleDetector "/tmp/image0" none).panicked = false ∧
    (DetectFaces missingCascadeEnv handleDetector "/tmp/image0" none).faces = none ∧
    Event.RunCascade ∉
      (DetectFaces missingCascadeEnv handleDetector "/tmp/image0" none).trace ∧
    Event.ClusterDetections ∉
      (DetectFaces missingCascadeEnv handleDetector "/tmp/image0" none).trace :=
  ⟨by decide, by decide,
    (DetectFaces_error_or_panic missingCascadeEnv handleDetector "/tmp/image0" none).2.2
      (Or.inl (by decide))⟩

/-- C7 fails as stated: `NewFaceDetector` with minSize 2000 and maxSize 20 yields a detector,
and `DetectFaces` on it unpacks the cascade, runs the classifier and returns with a nil error
(and no detection). -/
theorem NewFaceDetector_accepts_minSize_above_maxSize :
    (NewFaceDetector "./data/facefinder" 2000 20 f64_0_1 f64_1_1 f64_0_18).minSize = 2000 ∧
    (NewFaceDetector "./data/facefinder" 2000 20 f64_0_1 f64_1_1 f64_0_18).maxSize = 20 ∧
    (DetectFaces okEnv (NewFaceDetector "./data/facefinder" 2000 20 f64_0_1 f64_1_1 f64_0_18)
        "/tmp/image0" none).panicked = false ∧
    (DetectFaces okEnv (NewFaceDetector "./data/facefinder" 2000 20 f64_0_1 f64_1_1 f64_0_18)
        "/tmp/image0" none).err = none ∧
    (DetectFaces okEnv (NewFaceDetector "./data/facefinder" 2000 20 f64_0_1 f64_1_1 f64_0_18)
        "/tmp/image0" none).faces.toList = [] ∧
    Event.RunCascade ∈
      (DetectFaces okEnv (NewFaceDetector "./data/facefinder" 2000 20 f64_0_1 f64_1_1 f64_0_18)
        "/tmp/image0" none).trace := by
  decide

/-- C7, amended. `NewFaceDetector` validates nothing: for all arguments, also with
`minSize > maxSize`, it returns a detector holding exactly the arguments, and `DetectFaces` on
that detector, once the image decodes and the cascade file at `cf` is read and unpacks, runs
the classifier with `minSize`, `maxSize`, the shift factor and the scale factor as given, clusters
with the threshold `iou` as given, and returns the result with a nil error. -/
theorem NewFaceDetector_keeps_arguments (cf : String) (minSize maxSize : Int)
    (shf scf iou : GoFloat) :
    NewFaceDetector cf minSize maxSize shf scf iou =
      { cascadeFile := cf, minSize := minSize, maxSize := maxSize,
        shiftFactor := shf, scaleFactor := scf, iouThreshold := iou } ∧
    ∀ (env : Env) (source : String) (dc : Option Context) (src : SrcImage) (packet : Bytes)
      (classifier : Classifier),
      env.GetImage source = .ok src → env.ReadFile cf = (packet, none) →
      env.Unpack packet = some (.ok classifier) →
      (DetectFaces env (NewFaceDetector cf minSize maxSize shf scf iou) source dc).panicked
        = false ∧
      (DetectFaces env (NewFaceDetector cf minSize maxSize shf scf iou) source dc).err = none ∧
      (DetectFaces env (NewFaceDetector cf minSize maxSize shf scf iou) source dc).faces =
        env.ClusterDetections classifier
          (env.RunCascade classifier
            { MinSize := minSize, MaxSize := maxSize, ShiftFactor := shf, ScaleFactor := scf,
              ImageParams := { Pixels := env.RgbToGrayscale src, Rows := src.MaxY,
                               Cols := src.MaxX, Dim := src.MaxX } }
            (.fin 0))
          iou := by
  refine ⟨rfl, ?_⟩
  intro env source dc src packet classifier himg hread hunpack
  rw [DetectFaces_ok env (NewFaceDetector cf minSize maxSize shf scf iou) source dc src packet
    classifier himg hread hunpack]
  exact ⟨rfl, rfl, rfl⟩

/-- C7, amended, at a concrete input: a detector with minSize 300 above maxSize 100 is built
and used, and the classifier is called with exactly these sizes. -/
theorem NewFaceDetector_keeps_arguments_witness :
    okEnv.GetImage "/tmp/image0" = .ok { MaxX := 640, MaxY := 480, Pix := [] } ∧
    okEnv.ReadFile "./data/facefinder" = (facefinderBytes, none) ∧
    okEnv.Unpack facefinderBytes = some (.ok { packet := facefinderBytes }) ∧
    (DetectFaces okEnv (NewFaceDetector "./data/facefinder" 300 100 f64_0_1 f64_1_1 f64_0_18)
        "/tmp/image0" none).panicked = false ∧
    (DetectFaces okEnv (NewFaceDetector "./data/facefinder" 300 100 f64_0_1 f64_1_1 f64_0_18)
        "/tmp/image0" none).err = none ∧
    (DetectFaces okEnv (NewFaceDetector "./data/facefinder" 300 100 f64_0_1 f64_1_1 f64_0_18)
        "/tmp/image0" none).faces =
      okEnv.ClusterDetections { packet := facefinderBytes }
        (okEnv.RunCascade { packet := facefinderBytes }
          { MinSize := 300, MaxSize := 100, ShiftFactor := f64_0_1, ScaleFactor := f64_1_1,
            ImageParams := { Pixels := okEnv.RgbToGrayscale { MaxX := 640, MaxY := 480, Pix := [] },
                             Rows := 480, Cols := 640, Dim := 640 } }
          (.fin 0))
        f64_0_18 :=
  ⟨rfl, by decide, rfl,
    (NewFaceDetector_keeps_arguments "./data/facefinder" 300 100 f64_0_1 f64_1_1 f64_0_18).2
      okEnv "/tmp/image0" none { MaxX := 640, MaxY := 480, Pix := [] } facefinderBytes
      { packet := facefinderBytes } rfl (by decide) rfl⟩

/-! ## `verifyRequest` and the guards of `Handle` -/

theorem lookup_eq_none_iff {β : Type} (key : String) (kvs : List (String × β)) :
    kvs.lookup key = none ↔ ∀ v, (key, v) ∉ kvs := by
  induction kvs with
  | nil => simp
  | cons kv kvs ih =>
    rcases kv with ⟨k, v⟩
    by_cases hk : key = k
    · subst hk
      simp [List.lookup_cons]
      exact ⟨v, fun h => absurd rfl h⟩
    · have hb : (key == k) = false := by simpa using hk
      simp only [List.lookup_cons, hb, ih, List.mem_cons, Prod.mk.injEq, not_or]
      constructor
      · intro h w
        exact ⟨fun hh => hk hh.1, h w⟩
      · intro h w
        exact (h w).2

/-- C3. If the request as `ParseMultipartForm` leaves it has no multipart form, or a form
without a file map, or a file map without the key "image", then `Handle` answers with status
400 and makes no external call at all, so neither `DetectFaces` nor `DrawFaces` is invoked.
And for every request with a multipart form, `verifyRequest` returns a non-nil error exactly
when the key "image" is absent from the form's file map (a nil map has no key), and a nil error
otherwise. -/
theorem Handle_rejects_request_without_image :
    (∀ (env : Env) (r : Request) (dc : Option Context),
      ((env.ParseMultipartForm r).2.MultipartForm = none ∨
        ∃ form, (env.ParseMultipartForm r).2.MultipartForm = some form ∧
          (form.File = none ∨
            ∃ kvs, form.File = some kvs ∧ ∀ files, ("image", files) ∉ kvs)) →
      ∃ out, Handle env r dc = some out ∧ out.resp.status = 400 ∧ out.trace = [] ∧
        (∀ source, Event.DetectFaces source ∉ out.trace) ∧ Event.DrawFaces ∉ out.trace) ∧
    (∀ (r : Request) (form : Form), r.MultipartForm = some form →
      ((∃ e, verifyRequest r = some (some e)) ↔
        (form.File = none ∨ ∃ kvs, form.File = some kvs ∧ ∀ files, ("image", files) ∉ kvs)) ∧
      (verifyRequest r = some none ↔
        ∃ kvs files, form.File = some kvs ∧ ("image", files) ∈ kvs)) := by
  constructor
  · intro env r dc h
    unfold Handle
    rcases hp : env.ParseMultipartForm r with ⟨perr, r1⟩
    rw [hp] at h
    cases perr with
    | some e => exact ⟨_, rfl, rfl, rfl, by simp, by simp⟩
    | none =>
      simp only
      rcases h with h | ⟨form, hf, h⟩
      · simp only at h
        rw [h]
        exact ⟨_, rfl, rfl, rfl, by simp, by simp⟩
      · simp only at hf
        rw [hf]
        rcases h with h | ⟨kvs, hk, h⟩
        · simp only [h]
          exact ⟨_, rfl, rfl, rfl, by simp, by simp⟩
        · have hl : kvs.lookup "image" = none := (lookup_eq_none_iff "image" kvs).2 h
          simp only [hk, verifyRequest, hf, mapIndex, hl]
          exact ⟨_, rfl, rfl, rfl, by simp, by simp⟩
  · intro r form hf
    cases hm : form.File with
    | none => simp [verifyRequest, hf, mapIndex, hm]
    | some kvs =>
      cases hl : kvs.lookup "image" with
      | none =>
        have hno := (lookup_eq_none_iff "image" kvs).1 hl
        simp only [verifyRequest, hf, mapIndex, hm, hl]
        refine ⟨⟨fun _ => Or.inr ⟨kvs, rfl, hno⟩, fun _ => ⟨_, rfl⟩⟩, ?_⟩
        constructor
        · intro h
          cases h
        · rintro ⟨kvs2, files, h2, hmem⟩
          cases h2
          exact absurd hmem (hno files)
      | some files =>
        have hne : ¬ ∀ v, ("image", v) ∉ kvs := by
          intro h
          rw [(lookup_eq_none_iff "image" kvs).2 h] at hl
          cases hl
        push_neg at hne
        obtain ⟨v, hv⟩ := hne
        simp only [verifyRequest, hf, mapIndex, hm, hl]
        refine ⟨⟨?_, ?_⟩, ⟨fun _ => ⟨kvs, v, rfl, hv⟩, fun _ => trivial⟩⟩
        · rintro ⟨e, he⟩
          cases he
        · rintro (h | ⟨kvs2, h2, hno⟩)
          · cases h
          · cases h2
            exact absurd hv (hno v)

/-- C3, at a concrete input: a form whose only file field is "photo" is answered with 400 and
no external call. -/
theorem Handle_rejects_request_without_image_witness :
    ∃ out, Handle okEnv noImageRequest none = some out ∧ out.resp.status = 400 ∧
      out.trace = [] ∧ (∀ source, Event.DetectFaces source ∉ out.trace) ∧
      Event.DrawFaces ∉ out.trace :=
  Handle_rejects_request_without_image.1 okEnv noImageRequest none
    (Or.inr ⟨{ File := some [("photo", [{ Filename := "a.jpg" }])] }, rfl,
      Or.inr ⟨[("photo", [{ Filename := "a.jpg" }])], rfl,
        (lookup_eq_none_iff "image" _).1 (by decide)⟩⟩)

/-! ## The loop of `Handle` -/

theorem outputName_ne_cascade (now : Int) :
    "/tmp/" ++ toString now ++ ".jpg" ≠ "./data/facefinder" := by
  intro h
  have h2 := congrArg (fun s => s.data.head?) h
  have h3 : ("/tmp/" : String).data = ['/', 't', 'm', 'p', '/'] := rfl
  have h4 : ("./data/facefinder" : String).data.head? = some '.' := rfl
  simp only [String.data_append, h3, h4, List.cons_append, List.head?_cons] at h2
  exact absurd h2 (by decide)

/-- The external calls of a call of `DrawFaces` that returns a nil error. -/
theorem DrawFaces_ok_trace (env : Env) (now : Int) (faces : GoSlice Detection) (isCircle : Bool)
    (dc : Option Context) (out : DrawOut)
    (hret : DrawFaces env now faces isCircle dc = some out) (herr : out.err = none) :
    out.trace = [.DrawFaces, .OpenFile ("/tmp/" ++ toString now ++ ".jpg"),
                 .Encode ("/tmp/" ++ toString now ++ ".jpg"),
                 .ReadFile ("/tmp/" ++ toString now ++ ".jpg")] := by
  cases dc with
  | none => simp [DrawFaces] at hret
  | some dc0 =>
    unfold DrawFaces at hret
    cases h : env.OpenFile ("/tmp/" ++ toString now ++ ".jpg") with
    | some e =>
      simp only [h, Option.some.injEq] at hret
      subst hret
      cases herr
    | none =>
      simp only [h, Option.some.injEq] at hret
      subst hret
      rfl

/-- An iteration of the loop of `Handle` in which nothing fails. -/
theorem handleFile_ok (env : Env) (i : Nat) (h : FileHeader) (tmp : String) (out : DrawOut)
    (dc : Option Context) (hok : FileOk env i h tmp out) :
    handleFile env i h dc =
      some { res := .ok (resultAt out h), dc := some out.dc,
             trace := okFileTrace h tmp (env.UnixNano i) } := by
  obtain ⟨h1, h2, h3, hp, h4, h5, h6⟩ := hok
  have hd := DetectFaces_dc_irrelevant env handleDetector tmp dc hp h4
  obtain ⟨src, packet, classifier, g1, g2, g3⟩ :=
    DetectFaces_err_none env handleDetector tmp none hp h4
  have ht := DrawFaces_ok_trace env _ _ _ _ out h5 h6
  have hdt := DetectFaces_ok env handleDetector tmp none src packet classifier g1 g2 g3
  unfold handleFile
  simp only [h1, h2, h3, hd, hp, h4, h5, h6]
  rw [ht, hdt]
  rfl

theorem foldl_goAppend {α β : Type} (f : α → β) (xs : List α) :
    ∀ acc : GoSlice β, xs ≠ [] →
      xs.foldl (fun a p => goAppend a (f p)) acc = some (acc.toList ++ xs.map f) := by
  induction xs with
  | nil => intro acc h; exact absurd rfl h
  | cons x xs ih =>
    intro acc _
    simp only [List.foldl_cons]
    by_cases hx : xs = []
    · subst hx
      simp [goAppend]
    · rw [ih _ hx]
      simp [toList_goAppend]

/-- The loop of `Handle` over headers that all get through, followed by any further headers:
the loop reaches the further headers with one record appended per header, having made the
external calls `T`. -/
theorem handleLoop_ok_then (env : Env) (tmp : Nat → String) (dr : Nat → DrawOut)
    (pre : List FileHeader) :
    ∀ (i : Nat) (acc : GoSlice DetectionResult) (dc : Option Context),
      (∀ j h, pre[j]? = some h → FileOk env (i + j) h (tmp (i + j)) (dr (i + j))) →
      ∃ (dc1 : Option Context) (T : List Event),
        (∀ (p : Event → Bool) (k : Nat),
          (∀ h tmp now, (okFileTrace h tmp now).countP p = k) → T.countP p = k * pre.length) ∧
        ∀ rest, handleLoop env i (pre ++ rest) acc dc =
          (handleLoop env (i + pre.length) rest
            ((pre.enumFrom i).foldl (fun a p => goAppend a (resultAt (dr p.1) p.2)) acc) dc1).map
            (fun o => { o with trace := T ++ o.trace }) := by
  induction pre with
  | nil =>
    intro i acc dc _
    refine ⟨dc, [], ?_, ?_⟩
    · intro p k _
      simp
    · intro rest
      simp
  | cons f fs ih =>
    intro i acc dc hok
    have hf : FileOk env i f (tmp i) (dr i) := by
      have := hok 0 f (by simp)
      simpa using this
    have hrest : ∀ j h, fs[j]? = some h →
        FileOk env (i + 1 + j) h (tmp (i + 1 + j)) (dr (i + 1 + j)) := by
      intro j h hj
      have := hok (j + 1) h (by simpa using hj)
      have e : i + (j + 1) = i + 1 + j := by omega
      rw [e] at this
      exact this
    obtain ⟨dc1, T, hT, hloop⟩ :=
      ih (i + 1) (goAppend acc (resultAt (dr i) f)) (some (dr i).dc) hrest
    refine ⟨dc1, okFileTrace f (tmp i) (env.UnixNano i) ++ T, ?_, ?_⟩
    · intro p k hk
      rw [List.countP_append, hT p k hk, hk, List.length_cons]
      ring
    · intro rest
      have e : i + (f :: fs).length = i + 1 + fs.length := by
        simp only [List.length_cons]; omega
      rw [List.cons_append, handleLoop, handleFile_ok env i f (tmp i) (dr i) dc hf]
      simp only [hloop rest, List.enumFrom_cons, List.foldl_cons, e]
      cases handleLoop env (i + 1 + fs.length) rest
          (List.foldl (fun a p => goAppend a (resultAt (dr p.1) p.2))
            (goAppend acc (resultAt (dr i) f)) (List.enumFrom (i + 1) fs)) dc1 with
      | none => rfl
      | some o => simp

/-- Past its guards, `Handle` is its loop over the files under "image" and the final write. -/
theorem Handle_eq_loop (env : Env) (r r1 : Request) (dc : Option Context) (form : Form)
    (files : List FileHeader)
    (hparse : env.ParseMultipartForm r = (none, r1)) (hform : r1.MultipartForm = some form)
    (hfiles : mapIndex form.File "image" = some files) :
    Handle env r dc =
      match handleLoop env 0 files none dc with
      | none => none
      | some out =>
        match out.res with
        | .error resp => some { resp := resp, dc := out.dc, trace := out.trace }
        | .ok outcome =>
          some { resp := { status := StatusOK, body := .json (Marshal outcome) },
                 dc := out.dc, trace := out.trace } := by
  cases hF : form.File with
  | none => rw [hF] at hfiles; simp [mapIndex] at hfiles
  | some kvs =>
    have hv : verifyRequest r1 = some none := by
      simp only [verifyRequest, hform, hfiles]
    unfold Handle
    rw [hparse]
    simp only [hform, hF, hv]
    rw [hF] at hfiles
    simp only [hfiles, Option.getD_some]

theorem countP_isOpen_okFileTrace (h : FileHeader) (tmp : String) (now : Int) :
    (okFileTrace h tmp now).countP Event.isOpen = 1 := rfl

theorem countP_isDetectFaces_okFileTrace (h : FileHeader) (tmp : String) (now : Int) :
    (okFileTrace h tmp now).countP Event.isDetectFaces = 1 := rfl

theorem countP_unpack_okFileTrace (h : FileHeader) (tmp : String) (now : Int) :
    (okFileTrace h tmp now).countP (fun e => e == Event.Unpack) = 1 := by
  simp [okFileTrace, List.countP_cons]

theorem countP_cascadeRead_okFileTrace (h : FileHeader) (tmp : String) (now : Int) :
    (okFileTrace h tmp now).countP (fun e => e == Event.ReadFile "./data/facefinder") = 1 := by
  simp [okFileTrace, List.countP_cons, outputName_ne_cascade]

/-- A batch in which every file gets through: `Handle` returns status 200 with the marshalled
records, having made the external calls of one successful iteration per file. -/
theorem Handle_ok_loop (env : Env) (r r1 : Request) (dc : Option Context) (form : Form)
    (files : List FileHeader) (tmp : Nat → String) (dr : Nat → DrawOut)
    (hparse : env.ParseMultipartForm r = (none, r1)) (hform : r1.MultipartForm = some form)
    (hfiles : mapIndex form.File "image" = some files)
    (hok : ∀ i h, files[i]? = some h → FileOk env i h (tmp i) (dr i)) :
    ∃ (dc1 : Option Context) (T : List Event),
      (∀ (p : Event → Bool) (k : Nat),
        (∀ h tmp now, (okFileTrace h tmp now).countP p = k) → T.countP p = k * files.length) ∧
      Handle env r dc =
        some { resp := { status := StatusOK,
                         body := .json (Marshal ((files.enumFrom 0).foldl
                           (fun a p => goAppend a (resultAt (dr p.1) p.2)) none)) },
               dc := dc1, trace := T } := by
  have hok0 : ∀ j h, files[j]? = some h → FileOk env (0 + j) h (tmp (0 + j)) (dr (0 + j)) := by
    intro j h hj
    simpa using hok j h hj
  obtain ⟨dc1, T, hT, hloop⟩ := handleLoop_ok_then env tmp dr files 0 none dc hok0
  refine ⟨dc1, T, hT, ?_⟩
  have h := hloop []
  rw [List.append_nil] at h
  rw [Handle_eq_loop env r r1 dc form files hparse hform hfiles, h]
  simp [handleLoop]

/-- C4 fails as stated for the empty list: with the key "image" present and no file under it,
`Handle` answers 200 with the JSON document `null`, which is not an array. -/
theorem Handle_empty_batch_writes_null :
    mapIndex (some [("image", [])]) "image" = some [] ∧
    (Handle okEnv emptyBatchRequest none).map
        (fun out => (out.resp.status, out.resp.body.isNull, out.resp.body.arrayLength)) =
      some (200, true, none) := by
  decide

/-- C4, amended. For every non-empty list of files under "image" in which every file gets
through (the upload opens, is copied to a temporary file, and `DetectFaces` and `DrawFaces`
return nil errors on it), `Handle` answers with status 200 and a JSON array of exactly as many
records as files, in upload order, the i-th record holding the rectangles `DrawFaces` returned
for the i-th file, the standard base64 encoding of the bytes `DrawFaces` returned for it, and
the file's original filename. -/
theorem Handle_ok_batch_records (env : Env) (r r1 : Request) (dc : Option Context) (form : Form)
    (files : List FileHeader) (tmp : Nat → String) (dr : Nat → DrawOut)
    (hparse : env.ParseMultipartForm r = (none, r1)) (hform : r1.MultipartForm = some form)
    (hfiles : mapIndex form.File "image" = some files) (hne : files ≠ [])
    (hok : ∀ i h, files[i]? = some h → FileOk env i h (tmp i) (dr i)) :
    ∃ (out : HandleOut) (records : List DetectionResult),
      Handle env r dc = some out ∧ out.resp.status = 200 ∧
      out.resp.body = .json (.arr (records.map marshalResult)) ∧
      records.length = files.length ∧
      ∀ (i : Nat) (h : FileHeader), files[i]? = some h →
        records[i]? = some ({ Faces := (dr i).rects,
                              ImageBase64 := EncodeToString (dr i).image,
                              ImageName := h.Filename } : DetectionResult) := by
  obtain ⟨dc1, T, -, hH⟩ := Handle_ok_loop env r r1 dc form files tmp dr hparse hform hfiles hok
  have hne2 : files.enumFrom 0 ≠ [] := by
    cases files with
    | nil => exact absurd rfl hne
    | cons f fs => simp [List.enumFrom_cons]
  rw [foldl_goAppend (fun p : Nat × FileHeader => resultAt (dr p.1) p.2) _ none hne2] at hH
  refine ⟨_, (files.enumFrom 0).map (fun p => resultAt (dr p.1) p.2), hH, rfl, ?_, ?_, ?_⟩
  · simp [Marshal, marshalSlice, GoSlice.toList]
  · simp
  · intro i h hi
    simp [List.getElem?_map, List.getElem?_enumFrom, hi, resultAt]

/-- C4, amended, at a concrete input: two uploads in an environment where every call succeeds. -/
theorem Handle_ok_batch_records_witness :
    mapIndex (some [("image", [({ Filename := "a.jpg" } : FileHeader), { Filename := "b.jpg" }])])
        "image" = some [{ Filename := "a.jpg" }, { Filename := "b.jpg" }] ∧
    ∃ (out : HandleOut) (records : List DetectionResult),
      Handle okEnv twoFileRequest none = some out ∧ out.resp.status = 200 ∧
      out.resp.body = .json (.arr (records.map marshalResult)) ∧
      records.length = ([{ Filename := "a.jpg" }, { Filename := "b.jpg" }] : List FileHeader).length ∧
      ∀ (i : Nat) (h : FileHeader),
        ([{ Filename := "a.jpg" }, { Filename := "b.jpg" }] : List FileHeader)[i]? = some h →
        records[i]? = some ({ Faces := (okDrawOut i).rects,
                              ImageBase64 := EncodeToString (okDrawOut i).image,
                              ImageName := h.Filename } : DetectionResult) :=
  ⟨by decide,
    Handle_ok_batch_records okEnv twoFileRequest twoFileRequest none
      { File := some [("image", [{ Filename := "a.jpg" }, { Filename := "b.jpg" }])] }
      [{ Filename := "a.jpg" }, { Filename := "b.jpg" }]
      (fun i => "/tmp/image" ++ toString i) okDrawOut rfl rfl (by decide) (by decide)
      (fun i h hi =>
        match i, hi with
        | 0, _ => ⟨rfl, rfl, by decide, by decide, by decide, by decide, by decide⟩
        | 1, _ => ⟨rfl, rfl, by decide, by decide, by decide, by decide, by decide⟩
        | n + 2, hi => by simp at hi)⟩

/-! ## Failures inside the loop, and the cascade file -/

theorem DetectFaces_trace_counts (env : Env) (fd : FaceDetector) (source : String)
    (dc : Option Context) :
    (DetectFaces env fd source dc).trace.countP Event.isOpen = 0 ∧
    (DetectFaces env fd source dc).trace.countP Event.isDetectFaces = 1 := by
  cases himg : env.GetImage source with
  | error e =>
    simp only [DetectFaces, himg]
    exact ⟨rfl, rfl⟩
  | ok src =>
    rcases hread : env.ReadFile fd.cascadeFile with ⟨packet, rerr⟩
    cases rerr with
    | some e =>
      simp only [DetectFaces, himg, hread]
      exact ⟨rfl, rfl⟩
    | none =>
      cases hunpack : env.Unpack packet with
      | none =>
        simp only [DetectFaces, himg, hread, hunpack]
        exact ⟨rfl, rfl⟩
      | some res =>
        cases res with
        | error e =>
          simp only [DetectFaces, himg, hread, hunpack]
          exact ⟨rfl, rfl⟩
        | ok classifier =>
          simp only [DetectFaces, himg, hread, hunpack]
          exact ⟨rfl, rfl⟩

theorem DrawFaces_trace_counts (env : Env) (now : Int) (faces : GoSlice Detection)
    (isCircle : Bool) (dc : Option Context) (out : DrawOut)
    (hret : DrawFaces env now faces isCircle dc = some out) :
    out.trace.countP Event.isOpen = 0 ∧ out.trace.countP Event.isDetectFaces = 0 := by
  cases dc with
  | none => simp [DrawFaces] at hret
  | some dc0 =>
    unfold DrawFaces at hret
    cases h : env.OpenFile ("/tmp/" ++ toString now ++ ".jpg") with
    | some e =>
      simp only [h, Option.some.injEq] at hret
      subst hret
      exact ⟨rfl, rfl⟩
    | none =>
      simp only [h, Option.some.injEq] at hret
      subst hret
      exact ⟨rfl, rfl⟩

/-- An iteration of the loop of `Handle` in which the upload is staged and then `DetectFaces`
or `DrawFaces` returns an error: `Handle` writes a 500 response and returns. -/
theorem handleFile_fail (env : Env) (i : Nat) (h : FileHeader) (tmp : String)
    (dc : Option Context)
    (h1 : env.Open i h = none) (h2 : env.TempFile i = .ok tmp) (h3 : env.Copy tmp = none)
    (hfail : (DetectFaces env handleDetector tmp none).err ≠ none ∨
      ((DetectFaces env handleDetector tmp none).panicked = false ∧
        (DetectFaces env handleDetector tmp none).err = none ∧
        ∃ o, DrawFaces env (env.UnixNano i) (DetectFaces env handleDetector tmp none).faces false
            (DetectFaces env handleDetector tmp none).dc = some o ∧ o.err ≠ none)) :
    ∃ (fo : FileOut) (msg : String), handleFile env i h dc = some fo ∧
      fo.res = .error (httpError msg StatusInternalServerError) ∧
      fo.trace.countP Event.isOpen = 1 ∧ fo.trace.countP Event.isDetectFaces = 1 := by
  have hc := DetectFaces_trace_counts env handleDetector tmp dc
  rcases hfail with hd | ⟨hp, hd, o, ho, hoe⟩
  · rw [← (DetectFaces_err_dc env handleDetector tmp dc).1] at hd
    have hp := DetectFaces_panicked_err env handleDetector tmp dc hd
    obtain ⟨e, he⟩ := Option.ne_none_iff_exists'.1 hd
    unfold handleFile
    simp only [h1, h2, h3, hp, he]
    refine ⟨_, _, rfl, rfl, ?_, ?_⟩
    · simp only [List.countP_append, hc.1]
      rfl
    · simp only [List.countP_append, hc.2]
      rfl
  · have hirr := DetectFaces_dc_irrelevant env handleDetector tmp dc hp hd
    rw [← hirr] at hp hd ho
    obtain ⟨e, he⟩ := Option.ne_none_iff_exists'.1 hoe
    have hoc := DrawFaces_trace_counts env _ _ _ _ o ho
    unfold handleFile
    simp only [h1, h2, h3, hp, hd, ho, he]
    refine ⟨_, _, rfl, rfl, ?_, ?_⟩
    · simp only [List.countP_append, hc.1, hoc.1]
      rfl
    · simp only [List.countP_append, hc.2, hoc.2]
      rfl

/-- C5 fails as stated: when the first of two uploads does not decode, `Handle` answers 500
with no JSON array, and its external calls end at `pigo.GetImage` on the first upload: the
second upload, on which `DetectFaces` would return a nil error, is never opened. -/
theorem Handle_first_failure_drops_second :
    (Handle firstBadEnv twoFileRequest none).map
        (fun out => (out.resp.status, out.resp.body.arrayLength, out.trace)) =
      some (500, none,
        [.Open "a.jpg", .TempFile, .Copy "/tmp/image0", .NewFaceDetector,
         .DetectFaces "/tmp/image0", .GetImage "/tmp/image0"]) ∧
    (DetectFaces firstBadEnv handleDetector "/tmp/image0" none).err ≠ none ∧
    (DetectFaces firstBadEnv handleDetector "/tmp/image1" none).err = none := by
  decide

/-- C5, amended. When the files before some file of the batch all get through and, for that
file, `DetectFaces` or `DrawFaces` returns an error, `Handle` answers with status 500 and a
plain-text message, reports no result record, and stops: the files after it are never opened and
`DetectFaces` is never called on them. -/
theorem Handle_failure_aborts_batch (env : Env) (r r1 : Request) (dc : Option Context)
    (form : Form) (pre : List FileHeader) (h : FileHeader) (post : List FileHeader)
    (tmp : Nat → String) (dr : Nat → DrawOut) (tmpH : String)
    (hparse : env.ParseMultipartForm r = (none, r1)) (hform : r1.MultipartForm = some form)
    (hfiles : mapIndex form.File "image" = some (pre ++ h :: post))
    (hok : ∀ i f, pre[i]? = some f → FileOk env i f (tmp i) (dr i))
    (h1 : env.Open pre.length h = none) (h2 : env.TempFile pre.length = .ok tmpH)
    (h3 : env.Copy tmpH = none)
    (hfail : (DetectFaces env handleDetector tmpH none).err ≠ none ∨
      ((DetectFaces env handleDetector tmpH none).panicked = false ∧
        (DetectFaces env handleDetector tmpH none).err = none ∧
        ∃ o, DrawFaces env (env.UnixNano pre.length)
            (DetectFaces env handleDetector tmpH none).faces false
            (DetectFaces env handleDetector tmpH none).dc = some o ∧ o.err ≠ none)) :
    ∃ (out : HandleOut) (msg : String), Handle env r dc = some out ∧
      out.resp.status = 500 ∧ out.resp.body = .text msg ∧
      out.trace.countP Event.isOpen = pre.length + 1 ∧
      out.trace.countP Event.isDetectFaces = pre.length + 1 := by
  have hok0 : ∀ j f, pre[j]? = some f → FileOk env (0 + j) f (tmp (0 + j)) (dr (0 + j)) := by
    intro j f hj
    simpa using hok j f hj
  obtain ⟨dc1, T, hT, hloop⟩ := handleLoop_ok_then env tmp dr pre 0 none dc hok0
  obtain ⟨fo, msg, hfo, hres, hc1, hc2⟩ :=
    handleFile_fail env pre.length h tmpH dc1 h1 h2 h3 hfail
  have hl := hloop (h :: post)
  rw [Nat.zero_add] at hl
  rw [handleLoop, hfo] at hl
  simp only [hres, Option.map_some'] at hl
  rw [Handle_eq_loop env r r1 dc form (pre ++ h :: post) hparse hform hfiles, hl]
  refine ⟨_, msg ++ "\n", rfl, rfl, rfl, ?_, ?_⟩
  · simp only [List.countP_append, hT _ 1 countP_isOpen_okFileTrace, hc1]
    omega
  · simp only [List.countP_append, hT _ 1 countP_isDetectFaces_okFileTrace, hc2]
    omega

/-- C5, amended, at a concrete input: the first of two uploads does not decode. -/
theorem Handle_failure_aborts_batch_witness :
    (DetectFaces firstBadEnv handleDetector "/tmp/image0" none).err ≠ none ∧
    ∃ (out : HandleOut) (msg : String), Handle firstBadEnv twoFileRequest none = some out ∧
      out.resp.status = 500 ∧ out.resp.body = .text msg ∧
      out.trace.countP Event.isOpen = ([] : List FileHeader).length + 1 ∧
      out.trace.countP Event.isDetectFaces = ([] : List FileHeader).length + 1 :=
  ⟨by decide,
    Handle_failure_aborts_batch firstBadEnv twoFileRequest twoFileRequest none
      { File := some [("image", [{ Filename := "a.jpg" }, { Filename := "b.jpg" }])] }
      [] { Filename := "a.jpg" } [{ Filename := "b.jpg" }]
      (fun i => "/tmp/image" ++ toString i) okDrawOut "/tmp/image0"
      rfl rfl (by decide) (fun i f hi => by simp at hi) rfl rfl (by decide)
      (Or.inl (by decide))⟩

/-- C8 fails as stated: for a batch of two uploads `Handle` reads the cascade file twice and
unpacks it twice. -/
theorem Handle_two_files_read_cascade_twice :
    (Handle okEnv twoFileRequest none).map
        (fun out => (out.resp.status, out.trace.count (.ReadFile "./data/facefinder"),
          out.trace.count .Unpack)) = some (200, 2, 2) := by
  decide

/-- C8, amended. The cascade file is read and unpacked inside `DetectFaces`, once in every
call that gets past decoding the source image and reading the file: such a call reads the
cascade file exactly once, and a batch of n uploads that all get through makes `Handle` read
the cascade file exactly n times and unpack it exactly n times. -/
theorem Handle_reads_cascade_once_per_file :
    (∀ (env : Env) (fd : FaceDetector) (source : String) (dc : Option Context) (src : SrcImage),
      env.GetImage source = .ok src →
      (DetectFaces env fd source dc).trace.count (.ReadFile fd.cascadeFile) = 1) ∧
    (∀ (env : Env) (r r1 : Request) (dc : Option Context) (form : Form)
      (files : List FileHeader) (tmp : Nat → String) (dr : Nat → DrawOut),
      env.ParseMultipartForm r = (none, r1) → r1.MultipartForm = some form →
      mapIndex form.File "image" = some files →
      (∀ i h, files[i]? = some h → FileOk env i h (tmp i) (dr i)) →
      ∃ out, Handle env r dc = some out ∧
        out.trace.count (.ReadFile "./data/facefinder") = files.length ∧
        out.trace.count .Unpack = files.length) := by
  constructor
  · intro env fd source dc src himg
    rcases hread : env.ReadFile fd.cascadeFile with ⟨packet, rerr⟩
    cases rerr with
    | some e => simp [DetectFaces, himg, hread, List.count_cons]
    | none =>
      cases hunpack : env.Unpack packet with
      | none => simp [DetectFaces, himg, hread, hunpack, List.count_cons]
      | some res =>
        cases res with
        | error e => simp [DetectFaces, himg, hread, hunpack, List.count_cons]
        | ok classifier => simp [DetectFaces, himg, hread, hunpack, List.count_cons]
  · intro env r r1 dc form files tmp dr hparse hform hfiles hok
    obtain ⟨dc1, T, hT, hH⟩ :=
      Handle_ok_loop env r r1 dc form files tmp dr hparse hform hfiles hok
    refine ⟨_, hH, ?_, ?_⟩
    · have := hT _ 1 countP_cascadeRead_okFileTrace
      simpa [List.count] using this
    · have := hT _ 1 countP_unpack_okFileTrace
      simpa [List.count] using this

/-- C8, amended, at a concrete input: two uploads, two reads of the cascade file. -/
theorem Handle_reads_cascade_once_per_file_witness :
    ∃ out, Handle okEnv twoFileRequest none = some out ∧
      out.trace.count (.ReadFile "./data/facefinder") =
        ([{ Filename := "a.jpg" }, { Filename := "b.jpg" }] : List FileHeader).length ∧
      out.trace.count .Unpack =
        ([{ Filename := "a.jpg" }, { Filename := "b.jpg" }] : List FileHeader).length :=
  Handle_reads_cascade_once_per_file.2 okEnv twoFileRequest twoFileRequest none
    { File := some [("image", [{ Filename := "a.jpg" }, { Filename := "b.jpg" }])] }
    [{ Filename := "a.jpg" }, { Filename := "b.jpg" }]
    (fun i => "/tmp/image" ++ toString i) okDrawOut rfl rfl (by decide)
    (fun i h hi =>
      match i, hi with
      | 0, _ => ⟨rfl, rfl, by decide, by decide, by decide, by decide, by decide⟩
      | 1, _ => ⟨rfl, rfl, by decide, by decide, by decide, by decide, by decide⟩
      | n + 2, hi => by simp at hi)

end FaasPigo
